import Mathlib

/-!
Shallow embedding of the shopping-cart subsystem of the cosmetics e-commerce
backend (`cart.service.ts`, `cart.routes.ts`).

The relational rows (Cart, CartItem, Product, Inventory) become Lean
structures; the database state is a record of row lists; each service
operation becomes a pure function threading that state explicitly.  Fallible
operations return `Except ServiceError`, where `ServiceError.cart` carries the
typed `CartError` taxonomy of the source and `ServiceError.store` carries an
opaque store failure message (the source rethrows any non-`CartError`
unchanged from its catch blocks).  A transaction that fails produces only an
`Except.error`, never a new state: this models the source's requirement that a
failed transaction mutates nothing.

JavaScript numbers (quantities, prices converted via `Number(...)`) are
modelled as exact rationals `ℚ`; Prisma `Decimal` prices are likewise exact
rationals.  `Math.round` on a nonnegative argument is half-up rounding, which
coincides with Mathlib's `round` (`⌊x + 1/2⌋`) on `ℚ`.
-/

namespace CartModel

/-- A `Product` row: `id`, `name`, `imageUrl` (nullable), `price` (Decimal). -/
structure Product where
  id : String
  name : String
  imageUrl : Option String
  price : ℚ
deriving DecidableEq

/-- An `Inventory` row: one per product, with total `quantity` and `reserved`. -/
structure Inventory where
  productId : String
  quantity : ℚ
  reserved : ℚ
deriving DecidableEq

/-- A `Cart` row: bound to a session, optionally to a user. -/
structure Cart where
  id : String
  sessionId : String
  userId : Option String
deriving DecidableEq

/-- A `CartItem` row: one product line of a cart, with the price snapshot
captured at creation time. -/
structure CartItem where
  id : String
  cartId : String
  productId : String
  quantity : ℚ
  priceSnapshot : ℚ
deriving DecidableEq

/-- The relational store visible to the cart service, plus a counter used to
generate fresh `CartItem` ids (the database generates opaque unique ids). -/
structure DBState where
  carts : List Cart
  items : List CartItem
  products : List Product
  inventories : List Inventory
  nextId : Nat
deriving DecidableEq

/-- The typed cart error taxonomy of `cart.service.ts`
(`ProductNotFoundError`, `InsufficientInventoryError` with its
`(productId, available, requested)` arguments, `InvalidQuantityError`,
`CartItemNotFoundError`). -/
inductive CartError where
  | productNotFound (productId : String)
  | insufficientInventory (productId : String) (available requested : ℚ)
  | invalidQuantity (quantity : ℚ)
  | cartItemNotFound (itemId : String)
deriving DecidableEq

/-- What a service operation can fail with: a typed `CartError`, or an opaque
store failure (any non-`CartError` exception, rethrown unchanged by the
service's catch blocks). -/
inductive ServiceError where
  | cart (e : CartError)
  | store (msg : String)
deriving DecidableEq

/-- Models `prisma.product.findUnique({where: {id: productId}})`. -/
def findProduct (s : DBState) (productId : String) : Option Product :=
  s.products.find? (fun p => p.id == productId)

/-- The `inventory` relation included on a product lookup (unique per
`productId`). -/
def findInventory (s : DBState) (productId : String) : Option Inventory :=
  s.inventories.find? (fun inv => inv.productId == productId)

/-- Models `prisma.cart.findUnique({where: {id: cartId}})`. -/
def findCart (s : DBState) (cartId : String) : Option Cart :=
  s.carts.find? (fun c => c.id == cartId)

/-- Models `tx.cartItem.findFirst({where: {cartId, productId}})`. -/
def findCartItemByPair (s : DBState) (cartId productId : String) : Option CartItem :=
  s.items.find? (fun it => it.cartId == cartId && it.productId == productId)

/-- Models `prisma.cartItem.findUnique({where: {id: itemId}})`. -/
def findCartItemById (s : DBState) (itemId : String) : Option CartItem :=
  s.items.find? (fun it => it.id == itemId)

/-- Fresh opaque id for a newly created `CartItem` row. -/
def genItemId (n : Nat) : String := "item-" ++ toString n

/-- Models `tx.cartItem.update({where: {id: itemId}, data: {quantity}})`: the row
with the given id gets the new quantity; every other field, and every other
row, is untouched. -/
def setRowQuantity (items : List CartItem) (itemId : String) (q : ℚ) : List CartItem :=
  items.map (fun it => if it.id == itemId then { it with quantity := q } else it)

/-- Models `CartService.addItem(cartId, {productId, quantity})`.

The `storeFault` parameter injects a generic store failure inside the
transaction (as the unit tests do with `mockRejectedValue`); the source's
catch block rethrows such a failure unchanged, which here surfaces as
`ServiceError.store`.  The `quantity <= 0` guard runs before the transaction,
exactly as in the source (lines 149-151 precede `prisma.$transaction`). -/
def addItemWith (storeFault : Option String) (s : DBState) (cartId : String)
    (productId : String) (quantity : ℚ) : Except ServiceError (CartItem × DBState) :=
  if quantity ≤ 0 then
    .error (.cart (.invalidQuantity quantity))
  else
    match storeFault with
    | some msg => .error (.store msg)
    | none =>
      match findProduct s productId with
      | none => .error (.cart (.productNotFound productId))
      | some product =>
        match findInventory s productId with
        | none => .error (.cart (.insufficientInventory productId 0 quantity))
        | some inventory =>
          let available := inventory.quantity - inventory.reserved
          if available < quantity then
            .error (.cart (.insufficientInventory productId available quantity))
          else
            match findCartItemByPair s cartId productId with
            | some existingItem =>
              let newQuantity := existingItem.quantity + quantity
              if available < newQuantity then
                .error (.cart (.insufficientInventory productId available newQuantity))
              else
                .ok ({ existingItem with quantity := newQuantity },
                     { s with items := setRowQuantity s.items existingItem.id newQuantity })
            | none =>
              let cartItem : CartItem :=
                { id := genItemId s.nextId, cartId := cartId, productId := productId,
                  quantity := quantity, priceSnapshot := product.price }
              .ok (cartItem,
                   { s with items := s.items ++ [cartItem], nextId := s.nextId + 1 })

/-- The `addItem` operation against a healthy store. -/
def addItem (s : DBState) (cartId productId : String) (quantity : ℚ) :
    Except ServiceError (CartItem × DBState) :=
  addItemWith none s cartId productId quantity

/-- Models `CartService.updateItemQuantity(itemId, quantity)`.  As in `addItemWith`,
`storeFault` injects a generic in-transaction store failure; the
`quantity <= 0` guard precedes the transaction (source lines 253-255). -/
def updateItemQuantityWith (storeFault : Option String) (s : DBState) (itemId : String)
    (quantity : ℚ) : Except ServiceError (CartItem × DBState) :=
  if quantity ≤ 0 then
    .error (.cart (.invalidQuantity quantity))
  else
    match storeFault with
    | some msg => .error (.store msg)
    | none =>
      match findCartItemById s itemId with
      | none => .error (.cart (.cartItemNotFound itemId))
      | some cartItem =>
        match findInventory s cartItem.productId with
        | none => .error (.cart (.insufficientInventory cartItem.productId 0 quantity))
        | some inventory =>
          let available := inventory.quantity - inventory.reserved
          if available < quantity then
            .error (.cart (.insufficientInventory cartItem.productId available quantity))
          else
            .ok ({ cartItem with quantity := quantity },
                 { s with items := setRowQuantity s.items itemId quantity })

/-- The `updateItemQuantity` operation against a healthy store. -/
def updateItemQuantity (s : DBState) (itemId : String) (quantity : ℚ) :
    Except ServiceError (CartItem × DBState) :=
  updateItemQuantityWith none s itemId quantity

/-- Is `needle` a contiguous run at the head of `hay`? -/
def startsWithChars : List Char → List Char → Bool
  | [], _ => true
  | _ :: _, [] => false
  | a :: as, b :: bs => a == b && startsWithChars as bs

/-- Does `hay` contain `needle` as a contiguous run anywhere?  Models
JavaScript's `String.prototype.includes`. -/
def containsChars (needle : List Char) : List Char → Bool
  | [] => startsWithChars needle []
  | h :: t => startsWithChars needle (h :: t) || containsChars needle t

/-- Models `msg.includes(pat)` on JavaScript strings. -/
def strIncludes (msg pat : String) : Bool :=
  containsChars pat.toList msg.toList

/-- The message Prisma raises when `delete` targets an absent row. -/
def recordMissingMsg : String := "Record to delete does not exist"

/-- Models `prisma.cartItem.delete({where: {id: itemId}})`: deletes the unique row
with that id, or raises the store's absent-row error message. -/
def prismaCartItemDelete (s : DBState) (itemId : String) :
    Except String (CartItem × DBState) :=
  match s.items.find? (fun it => it.id == itemId) with
  | none => .error recordMissingMsg
  | some it => .ok (it, { s with items := s.items.filter (fun x => !(x.id == itemId)) })

/-- The catch block of `CartService.removeItem`: a store error whose message
includes `'Record to delete does not exist'` becomes `CartItemNotFoundError`;
every other failure is rethrown unchanged. -/
def removeItemFrom (itemId : String) (deleteResult : Except String (CartItem × DBState)) :
    Except ServiceError DBState :=
  match deleteResult with
  | .ok (_, s') => .ok s'
  | .error msg =>
    if strIncludes msg recordMissingMsg then .error (.cart (.cartItemNotFound itemId))
    else .error (.store msg)

/-- Models `CartService.removeItem(itemId)` against a healthy store. -/
def removeItem (s : DBState) (itemId : String) : Except ServiceError DBState :=
  removeItemFrom itemId (prismaCartItemDelete s itemId)

/-- Models `CartService.clearCart(cartId)`, a `deleteMany({where: {cartId}})`. -/
def clearCart (s : DBState) (cartId : String) : DBState :=
  { s with items := s.items.filter (fun it => !(it.cartId == cartId)) }

/-- An external catalog price change on a product (not a cart-service
operation; used to state price-snapshot immutability). -/
def setProductPrice (s : DBState) (productId : String) (newPrice : ℚ) : DBState :=
  { s with products :=
      s.products.map (fun p => if p.id == productId then { p with price := newPrice } else p) }

/-- Models `Math.round(q * 100) / 100`: half-up rounding to 2 decimal places.
Mathlib's `round` is `⌊x + 1/2⌋`, which agrees with JavaScript's
`Math.round` on every rational (both round halves toward positive
infinity). -/
def round2 (q : ℚ) : ℚ := (round (q * 100) : ℤ) / 100

/-- Result record of `calculateTotals`. -/
structure CartCalculation where
  subtotal : ℚ
  tax : ℚ
  total : ℚ
deriving DecidableEq

/-- The raw (unrounded) reduce over line totals in `calculateTotals`. -/
def rawSubtotal (items : List CartItem) : ℚ :=
  items.foldl (fun sum item => sum + item.priceSnapshot * item.quantity) 0

/-- Models `CartService.calculateTotals(items)` with tax rate `r` (the source reads
`TAX_RATE` from the environment, default `0.08`): the unrounded subtotal is
accumulated, tax and total are derived from it unrounded, and each of the
three results is rounded half-up to 2 decimals at the end. -/
def calculateTotals (r : ℚ) (items : List CartItem) : CartCalculation :=
  let subtotal := rawSubtotal items
  let tax := subtotal * r
  let total := subtotal + tax
  { subtotal := round2 subtotal, tax := round2 tax, total := round2 total }

/-- One formatted line of a cart response. -/
structure CartItemResponse where
  id : String
  productId : String
  productName : String
  productImage : String
  quantity : ℚ
  priceSnapshot : ℚ
  subtotal : ℚ
deriving DecidableEq

/-- The cart response returned by `getCart`. -/
structure CartResponse where
  id : String
  items : List CartItemResponse
  subtotal : ℚ
  tax : ℚ
  total : ℚ
  itemCount : ℚ
deriving DecidableEq

/-- Models `CartService.formatCartResponse(cart)`: formats each line (with its own
independently rounded display subtotal) and attaches the cart-level totals
and the unrounded item count. -/
def formatCartResponse (r : ℚ) (cartId : String)
    (itemsWithProducts : List (CartItem × Product)) : CartResponse :=
  let items := itemsWithProducts.map (fun ip =>
    { id := ip.1.id
      productId := ip.1.productId
      productName := ip.2.name
      productImage := ip.2.imageUrl.getD ""
      quantity := ip.1.quantity
      priceSnapshot := ip.1.priceSnapshot
      subtotal := round2 (ip.1.priceSnapshot * ip.1.quantity) : CartItemResponse })
  let calculations := calculateTotals r (itemsWithProducts.map Prod.fst)
  let itemCount := (itemsWithProducts.map Prod.fst).foldl (fun sum item => sum + item.quantity) 0
  { id := cartId
    items := items
    subtotal := calculations.subtotal
    tax := calculations.tax
    total := calculations.total
    itemCount := itemCount }

/-- The items of a cart joined with their products, as produced by the
`include: {items: {include: {product: true}}}` query in `getCart`. -/
def cartItemsWithProducts (s : DBState) (cartId : String) : List (CartItem × Product) :=
  (s.items.filter (fun it => it.cartId == cartId)).filterMap
    (fun it => (findProduct s it.productId).map (fun p => (it, p)))

/-- Models `CartService.getCart(cartId)`: total over every `cartId`; a missing cart
yields the synthetic empty response. -/
def getCart (r : ℚ) (s : DBState) (cartId : String) : CartResponse :=
  match findCart s cartId with
  | none =>
    { id := cartId, items := [], subtotal := 0, tax := 0, total := 0, itemCount := 0 }
  | some cart => formatCartResponse r cart.id (cartItemsWithProducts s cart.id)

/-- The exact (unrounded) total of one line. -/
def lineTotal (it : CartItem) : ℚ := it.priceSnapshot * it.quantity

/-- The cart-service operations (plus the external catalog price change)
whose effect on stored rows is tracked for price-snapshot immutability. -/
inductive CartOp where
  | add (cartId productId : String) (quantity : ℚ)
  | update (itemId : String) (quantity : ℚ)
  | clear (cartId : String)
  | priceChange (productId : String) (newPrice : ℚ)

/-- Runs one operation against the store; a failed operation mutates
nothing (the transaction aborts). -/
def applyOp (s : DBState) : CartOp → DBState
  | .add cid pid q =>
    match addItem s cid pid q with
    | .ok (_, s') => s'
    | .error _ => s
  | .update iid q =>
    match updateItemQuantity s iid q with
    | .ok (_, s') => s'
    | .error _ => s
  | .clear cid => clearCart s cid
  | .priceChange pid p => setProductPrice s pid p

/-! ### Concrete fixtures used by counterexamples and witnesses -/

/-- A catalog product priced at 10.00 with ample stock. -/
def prodTen : Product := { id := "p1", name := "Lipstick", imageUrl := none, price := 10 }

/-- Inventory row for `prodTen`: 100 on hand, none reserved. -/
def invHundred : Inventory := { productId := "p1", quantity := 100, reserved := 0 }

/-- One cart, one in-stock product, no items yet. -/
def stateEmptyCart : DBState :=
  { carts := [{ id := "c1", sessionId := "s1", userId := none }], items := [],
    products := [prodTen], inventories := [invHundred], nextId := 0 }

/-- Like `stateEmptyCart` but the cart already holds one unit of `p1`
(snapshot 10) under item id `i1`. -/
def stateOneItem : DBState :=
  { stateEmptyCart with
      items := [{ id := "i1", cartId := "c1", productId := "p1",
                  quantity := 1, priceSnapshot := 10 }] }

/-- A line of 1 unit at the sub-cent price 10.063, on which the rounding
order of operations becomes observable. -/
def subCentItem : CartItem :=
  { id := "i1", cartId := "c1", productId := "p1", quantity := 1, priceSnapshot := 10.063 }

/-- Two carts lines whose exact line totals each end in a half-cent
(price 10.005, quantity 1), exhibiting the per-line versus cart-level
rounding divergence. -/
def stateHalfCent : DBState :=
  { carts := [{ id := "c1", sessionId := "s1", userId := none }],
    items := [{ id := "i1", cartId := "c1", productId := "p1",
                quantity := 1, priceSnapshot := 10.005 },
              { id := "i2", cartId := "c1", productId := "p2",
                quantity := 1, priceSnapshot := 10.005 }],
    products := [{ id := "p1", name := "Serum", imageUrl := none, price := 10.005 },
                 { id := "p2", name := "Toner", imageUrl := none, price := 10.005 }],
    inventories := [], nextId := 2 }

/-- A cart already holding 5 units of `p1` while only 8 are available:
an add of 10 more trips the *first* availability gate (on the increment),
not the accumulated-quantity gate. -/
def stateFiveHeld : DBState :=
  { carts := [{ id := "c1", sessionId := "s1", userId := none }],
    items := [{ id := "i1", cartId := "c1", productId := "p1",
                quantity := 5, priceSnapshot := 10 }],
    products := [prodTen],
    inventories := [{ productId := "p1", quantity := 8, reserved := 0 }],
    nextId := 1 }

/-- A cart row holding 5 units while global availability has dropped to 2:
even lowering the quantity to 3 is rejected, because the check is against
global available stock, not the incremental delta. -/
def stateScarce : DBState :=
  { carts := [{ id := "c1", sessionId := "s1", userId := none }],
    items := [{ id := "i1", cartId := "c1", productId := "p1",
                quantity := 5, priceSnapshot := 10 }],
    products := [prodTen],
    inventories := [{ productId := "p1", quantity := 2, reserved := 0 }],
    nextId := 1 }

instance {ε α : Type _} [DecidableEq ε] [DecidableEq α] : DecidableEq (Except ε α) := fun a b =>
  match a, b with
  | .error x, .error y => decidable_of_iff (x = y) (by simp)
  | .error _, .ok _ => isFalse (by simp)
  | .ok _, .error _ => isFalse (by simp)
  | .ok x, .ok y => decidable_of_iff (x = y) (by simp)

attribute [local semireducible] Rat.mul Rat.add Rat.sub Rat.inv Rat.ofScientific

/-! ### Helper lemmas -/

theorem foldl_add_map_sum {α : Type _} (f : α → ℚ) (l : List α) (a : ℚ) :
    l.foldl (fun acc x => acc + f x) a = a + (l.map f).sum := by
  induction l generalizing a with
  | nil => simp
  | cons x xs ih => simp [ih, add_assoc]

/-- Closed form of `calculateTotals`: every output is the half-up 2-decimal
rounding of an expression in the exact line-total sum, and tax and total are
derived from the unrounded sum. -/
theorem calculateTotals_eq (r : ℚ) (items : List CartItem) :
    calculateTotals r items =
      { subtotal := round2 ((items.map lineTotal).sum)
        tax := round2 (((items.map lineTotal).sum) * r)
        total := round2 (((items.map lineTotal).sum) + ((items.map lineTotal).sum) * r) } := by
  unfold calculateTotals rawSubtotal
  rw [show (fun (sum : ℚ) (item : CartItem) => sum + item.priceSnapshot * item.quantity)
        = (fun (acc : ℚ) (item : CartItem) => acc + lineTotal item) from rfl]
  rw [foldl_add_map_sum lineTotal items 0, zero_add]

/-- Closed form of the formatted line list of `formatCartResponse`. -/
theorem formatCartResponse_items_eq (r : ℚ) (cid : String)
    (ps : List (CartItem × Product)) :
    (formatCartResponse r cid ps).items = ps.map (fun ip =>
      { id := ip.1.id, productId := ip.1.productId, productName := ip.2.name,
        productImage := ip.2.imageUrl.getD "", quantity := ip.1.quantity,
        priceSnapshot := ip.1.priceSnapshot,
        subtotal := round2 (ip.1.priceSnapshot * ip.1.quantity) : CartItemResponse }) := rfl

/-- The cart-level subtotal of `formatCartResponse` rounds the sum of the
unrounded line totals once. -/
theorem formatCartResponse_subtotal_eq (r : ℚ) (cid : String)
    (ps : List (CartItem × Product)) :
    (formatCartResponse r cid ps).subtotal =
      round2 (((ps.map Prod.fst).map lineTotal).sum) := by
  show (calculateTotals r (ps.map Prod.fst)).subtotal = _
  rw [calculateTotals_eq]

/-- The item count of `formatCartResponse` is the plain (unrounded) sum of
the line quantities. -/
theorem formatCartResponse_itemCount_eq (r : ℚ) (cid : String)
    (ps : List (CartItem × Product)) :
    (formatCartResponse r cid ps).itemCount =
      ((ps.map Prod.fst).map CartItem.quantity).sum := by
  show (ps.map Prod.fst).foldl (fun sum item => sum + item.quantity) 0 = _
  rw [show (fun (sum : ℚ) (item : CartItem) => sum + item.quantity)
        = (fun (acc : ℚ) (item : CartItem) => acc + CartItem.quantity item) from rfl]
  rw [foldl_add_map_sum, zero_add]

/-! ### C7 -/

/-- **C7**: for a `cartId` with no Cart row, `getCart` does not fail and
returns the synthetic empty response `{id: cartId, items: [], subtotal: 0,
tax: 0, total: 0, itemCount: 0}`.  Totality over all inputs is expressed by
the return type of `getCart` itself, which has no error component. -/
theorem getCart_missing_cart_empty (r : ℚ) (s : DBState) (cartId : String)
    (h : findCart s cartId = none) :
    getCart r s cartId =
      { id := cartId, items := [], subtotal := 0, tax := 0, total := 0, itemCount := 0 } := by
  unfold getCart
  rw [h]

/-- Witness for C7 at a concrete store that contains carts, none named
`missing`. -/
theorem getCart_missing_cart_empty_witness :
    getCart (8/100) stateOneItem "missing" =
      { id := "missing", items := [], subtotal := 0, tax := 0, total := 0, itemCount := 0 } :=
  getCart_missing_cart_empty (8/100) stateOneItem "missing" (by decide)

/-! ### C8 -/

/-- **C8**: `removeItem` deletes the row with the given id when it exists;
it fails with `CartItemNotFound` exactly when the store reports no row to
delete (the store's absent-row error message); any other store failure during
deletion propagates unchanged as an opaque `store` error, never translated
into `CartItemNotFound`. -/
theorem removeItem_spec (s : DBState) (itemId : String) :
    (∀ it, findCartItemById s itemId = some it →
        removeItem s itemId =
          .ok { s with items := s.items.filter (fun x => !(x.id == itemId)) }) ∧
    (findCartItemById s itemId = none →
        removeItem s itemId = .error (.cart (.cartItemNotFound itemId))) ∧
    (∀ msg, strIncludes msg recordMissingMsg = false →
        removeItemFrom itemId (.error msg) = .error (.store msg)) := by
  refine ⟨?_, ?_, ?_⟩
  · intro it hit
    unfold removeItem prismaCartItemDelete removeItemFrom
    unfold findCartItemById at hit
    rw [hit]
  · intro hnone
    unfold removeItem prismaCartItemDelete removeItemFrom
    unfold findCartItemById at hnone
    rw [hnone]
    have hself : strIncludes recordMissingMsg recordMissingMsg = true := by decide
    simp [hself]
  · intro msg hmsg
    unfold removeItemFrom
    simp [hmsg]

/-- Witness for C8: exercises all three branches at concrete inputs — a
present row is deleted, an absent row raises `CartItemNotFound`, and a
connectivity failure passes through untranslated. -/
theorem removeItem_spec_witness :
    removeItem stateOneItem "i1" = .ok { stateOneItem with items := [] } ∧
    removeItem stateOneItem "ghost" = .error (.cart (.cartItemNotFound "ghost")) ∧
    removeItemFrom "i1" (.error "Database connection failed") =
      .error (.store "Database connection failed") :=
  ⟨(removeItem_spec stateOneItem "i1").1
     { id := "i1", cartId := "c1", productId := "p1", quantity := 1, priceSnapshot := 10 }
     (by decide),
   (removeItem_spec stateOneItem "ghost").2.1 (by decide),
   (removeItem_spec stateOneItem "i1").2.2 "Database connection failed" (by decide)⟩

/-! ### C3 -/

/-- **C3 counterexample**: the service-layer guard is only `quantity <= 0`,
so the positive non-integer quantity `1/2` is *not* rejected with
`InvalidQuantity`: both `addItem` and `updateItemQuantity` accept it and
mutate the store.  (Integer-ness is enforced by the HTTP route validation
with a different error, `INVALID_INPUT`, before the service is reached.) -/
theorem noninteger_quantity_accepted_cex :
    ¬ ((1/2 : ℚ).den = 1) ∧ (0 < (1/2 : ℚ)) ∧
    addItem stateEmptyCart "c1" "p1" (1/2) =
      .ok ({ id := "item-0", cartId := "c1", productId := "p1",
             quantity := 1/2, priceSnapshot := 10 },
           { stateEmptyCart with
               items := [{ id := "item-0", cartId := "c1", productId := "p1",
                           quantity := 1/2, priceSnapshot := 10 }],
               nextId := 1 }) ∧
    updateItemQuantity stateOneItem "i1" (1/2) =
      .ok ({ id := "i1", cartId := "c1", productId := "p1",
             quantity := 1/2, priceSnapshot := 10 },
           { stateOneItem with
               items := [{ id := "i1", cartId := "c1", productId := "p1",
                           quantity := 1/2, priceSnapshot := 10 }] }) := by
  refine ⟨by decide, by decide, ?_, ?_⟩ <;> decide

/-- **C3 (amended)**: for every quantity `q ≤ 0`, both `addItem` and
`updateItemQuantity` fail with `InvalidQuantity q` and perform no mutation;
the rejection precedes the transaction — even a store that would fail
(`storeFault` arbitrary) is never consulted.  Positive non-integer quantities
are not rejected by the service (see the counterexample); their rejection
happens in the route layer with `INVALID_INPUT`. -/
theorem invalid_quantity_guard (storeFault : Option String) (s : DBState)
    (cartId productId itemId : String) (q : ℚ) (hq : q ≤ 0) :
    addItemWith storeFault s cartId productId q =
      .error (.cart (.invalidQuantity q)) ∧
    updateItemQuantityWith storeFault s itemId q =
      .error (.cart (.invalidQuantity q)) := by
  unfold addItemWith updateItemQuantityWith
  rw [if_pos hq, if_pos hq]
  exact ⟨rfl, rfl⟩

/-- Witness for C3 (amended) at quantity `0` with a store primed to fail:
the guard fires first on both paths. -/
theorem invalid_quantity_guard_witness :
    addItemWith (some "boom") stateEmptyCart "c1" "p1" 0 =
      .error (.cart (.invalidQuantity 0)) ∧
    updateItemQuantityWith (some "boom") stateOneItem "i1" 0 =
      .error (.cart (.invalidQuantity 0)) :=
  invalid_quantity_guard (some "boom") stateEmptyCart "c1" "p1" "i1" 0 (by decide)

/-! ### C4 -/

/-- **C4 counterexample**: `calculateTotals` derives tax and total from the
*unrounded* subtotal, not from the returned rounded subtotal as the claim
states.  At one line of `(10.063, 1)` and rate 0.08 the code returns
tax 0.81 and total 10.87, while the claim's formulas (tax from the rounded
subtotal 10.06, total from rounded subtotal plus rounded tax) give 0.80 and
10.86. -/
theorem totals_tax_not_from_rounded_subtotal_cex :
    (calculateTotals (8/100) [subCentItem]).subtotal = 1006/100 ∧
    (calculateTotals (8/100) [subCentItem]).tax = 81/100 ∧
    (calculateTotals (8/100) [subCentItem]).total = 1087/100 ∧
    round2 ((calculateTotals (8/100) [subCentItem]).subtotal * (8/100)) = 80/100 ∧
    round2 ((calculateTotals (8/100) [subCentItem]).subtotal
        + round2 ((calculateTotals (8/100) [subCentItem]).subtotal * (8/100))) = 1086/100 ∧
    (calculateTotals (8/100) [subCentItem]).tax ≠
      round2 ((calculateTotals (8/100) [subCentItem]).subtotal * (8/100)) := by
  refine ⟨?_, ?_, ?_, ?_, ?_, ?_⟩ <;> decide

/-- **C4 (amended)**: with `S` the exact sum of `priceSnapshot_i × quantity_i`,
`calculateTotals` returns `subtotal = round2 S` (half-up, rounded only at the
final result), `tax = round2 (S × r)` and `total = round2 (S + S × r)` — both
computed from the *unrounded* `S` — and `formatCartResponse` reports
`itemCount` as the unrounded sum of quantities; on items `[(19.99, 3)]` at
rate 0.08 this yields subtotal 59.97, tax 4.80, total 64.77, itemCount 3. -/
theorem calculateTotals_spec (r : ℚ) (items : List CartItem) :
    calculateTotals r items =
      { subtotal := round2 ((items.map lineTotal).sum)
        tax := round2 (((items.map lineTotal).sum) * r)
        total := round2 (((items.map lineTotal).sum) + ((items.map lineTotal).sum) * r) } ∧
    (∀ cid ps, (formatCartResponse r cid ps).itemCount =
        ((ps.map Prod.fst).map CartItem.quantity).sum) ∧
    calculateTotals (8/100)
        [{ id := "i1", cartId := "c1", productId := "p1",
           quantity := 3, priceSnapshot := 19.99 }] =
      { subtotal := 59.97, tax := 4.80, total := 64.77 } := by
  refine ⟨calculateTotals_eq r items, ?_, by decide⟩
  intro cid ps
  exact formatCartResponse_itemCount_eq r cid ps

/-! ### C10 -/

/-- **C10**: each line's displayed subtotal is independently rounded
(`round2` applied per line), the cart-level subtotal rounds the sum of the
*unrounded* line totals once at the end, and consequently there is a cart —
two lines of `(10.005, 1)` — whose displayed per-line subtotals sum to 20.02
while the displayed cart subtotal is 20.01. -/
theorem line_vs_cart_subtotal_rounding :
    (∀ r cid ps, (formatCartResponse r cid ps).items = ps.map (fun ip =>
        { id := ip.1.id, productId := ip.1.productId, productName := ip.2.name,
          productImage := ip.2.imageUrl.getD "", quantity := ip.1.quantity,
          priceSnapshot := ip.1.priceSnapshot,
          subtotal := round2 (ip.1.priceSnapshot * ip.1.quantity) : CartItemResponse })) ∧
    (∀ r cid ps, (formatCartResponse r cid ps).subtotal =
        round2 (((ps.map Prod.fst).map lineTotal).sum)) ∧
    ((getCart (8/100) stateHalfCent "c1").items.map CartItemResponse.subtotal).sum
        = 2002/100 ∧
    (getCart (8/100) stateHalfCent "c1").subtotal = 2001/100 ∧
    ((getCart (8/100) stateHalfCent "c1").items.map CartItemResponse.subtotal).sum ≠
      (getCart (8/100) stateHalfCent "c1").subtotal := by
  refine ⟨fun r cid ps => formatCartResponse_items_eq r cid ps,
          fun r cid ps => formatCartResponse_subtotal_eq r cid ps, ?_, ?_, ?_⟩ <;> decide

/-! ### C2 -/

/-- **C2 counterexample**: with an existing row of quantity 5, available
stock 8 and an add of 10 (so `newQuantity = 15 > 8`), the call does fail —
but the error carries `(productId, 8, 10)` (the increment, from the first
availability check at source line 174), not `(productId, 8, 15)` as the
claim states. -/
theorem insufficient_error_args_cex :
    (8:ℚ) < 5 + 10 ∧
    addItem stateFiveHeld "c1" "p1" 10 =
      .error (.cart (.insufficientInventory "p1" 8 10)) ∧
    addItem stateFiveHeld "c1" "p1" 10 ≠
      .error (.cart (.insufficientInventory "p1" 8 15)) := by
  refine ⟨by decide, by decide, by decide⟩

/-- **C2 (amended)**: with an existing row for `(cartId, productId)` and
`newQuantity = existing.quantity + quantity`, the call fails exactly when
`available < newQuantity` is reachable through either gate: if
`available < quantity` it fails with `InsufficientInventory(productId,
available, quantity)` (the increment), otherwise if `available < newQuantity`
it fails with `InsufficientInventory(productId, available, newQuantity)`;
a failure returns only an error (no mutation, the transaction aborts);
otherwise the row's quantity becomes `newQuantity` and its `priceSnapshot`
is not refreshed. -/
theorem addItem_existing_pair_spec (s : DBState) (cid pid : String) (q : ℚ)
    (ex : CartItem) (prod : Product) (inv : Inventory)
    (hq : 0 < q)
    (hprod : findProduct s pid = some prod)
    (hinv : findInventory s pid = some inv)
    (hex : findCartItemByPair s cid pid = some ex) :
    (inv.quantity - inv.reserved < q →
        addItem s cid pid q =
          .error (.cart (.insufficientInventory pid (inv.quantity - inv.reserved) q))) ∧
    (¬ inv.quantity - inv.reserved < q →
        inv.quantity - inv.reserved < ex.quantity + q →
        addItem s cid pid q =
          .error (.cart (.insufficientInventory pid (inv.quantity - inv.reserved)
            (ex.quantity + q)))) ∧
    (¬ inv.quantity - inv.reserved < q →
        ¬ inv.quantity - inv.reserved < ex.quantity + q →
        addItem s cid pid q =
          .ok ({ ex with quantity := ex.quantity + q },
               { s with items := setRowQuantity s.items ex.id (ex.quantity + q) })) := by
  have h1 : ¬ (q ≤ 0) := not_le.mpr hq
  refine ⟨?_, ?_, ?_⟩
  · intro hlt
    unfold addItem addItemWith
    rw [if_neg h1]
    simp only [hprod, hinv, hex]
    rw [if_pos hlt]
  · intro hge hlt
    unfold addItem addItemWith
    rw [if_neg h1]
    simp only [hprod, hinv, hex]
    rw [if_neg hge, if_pos hlt]
  · intro hge hge2
    unfold addItem addItemWith
    rw [if_neg h1]
    simp only [hprod, hinv, hex]
    rw [if_neg hge, if_neg hge2]

/-- Witness for C2 (amended): adding 2 to an existing row of 1 with 100
available updates the row to 3 and keeps the snapshot. -/
theorem addItem_existing_pair_spec_witness :
    addItem stateOneItem "c1" "p1" 2 =
      .ok ({ id := "i1", cartId := "c1", productId := "p1",
             quantity := 3, priceSnapshot := 10 },
           { stateOneItem with
               items := [{ id := "i1", cartId := "c1", productId := "p1",
                           quantity := 3, priceSnapshot := 10 }] }) := by
  have h := (addItem_existing_pair_spec stateOneItem "c1" "p1" 2
    { id := "i1", cartId := "c1", productId := "p1", quantity := 1, priceSnapshot := 10 }
    prodTen invHundred (by decide) (by decide) (by decide) (by decide)).2.2
    (by decide) (by decide)
  exact h

/-! ### C5 -/

/-- **C5**: `updateItemQuantity` with a positive integer quantity fails with
`CartItemNotFound` when no row has the id; otherwise it checks the product's
*global* available stock `inventory.quantity - inventory.reserved` (the
item's own prior quantity is not subtracted anywhere in the formula): if
`available < quantity` it fails with `InsufficientInventory`, else it sets
the row's quantity to exactly the given value (absolute replacement) and
returns the row. -/
theorem updateItemQuantity_spec (s : DBState) (itemId : String) (q : ℚ)
    (hq : 0 < q) (_hint : q.den = 1) :
    (findCartItemById s itemId = none →
        updateItemQuantity s itemId q = .error (.cart (.cartItemNotFound itemId))) ∧
    (∀ it inv, findCartItemById s itemId = some it →
        findInventory s it.productId = some inv →
        (inv.quantity - inv.reserved < q →
            updateItemQuantity s itemId q =
              .error (.cart (.insufficientInventory it.productId
                (inv.quantity - inv.reserved) q))) ∧
        (¬ inv.quantity - inv.reserved < q →
            updateItemQuantity s itemId q =
              .ok ({ it with quantity := q },
                   { s with items := setRowQuantity s.items itemId q }))) := by
  have h1 : ¬ (q ≤ 0) := not_le.mpr hq
  refine ⟨?_, ?_⟩
  · intro hnone
    unfold updateItemQuantity updateItemQuantityWith
    rw [if_neg h1]
    simp only [hnone]
  · intro it inv hit hinv
    refine ⟨?_, ?_⟩
    · intro hlt
      unfold updateItemQuantity updateItemQuantityWith
      rw [if_neg h1]
      simp only [hit, hinv]
      rw [if_pos hlt]
    · intro hge
      unfold updateItemQuantity updateItemQuantityWith
      rw [if_neg h1]
      simp only [hit, hinv]
      rw [if_neg hge]

/-- Witness for C5: a decrease request (3 < current 5) still fails when
available stock is 2; a missing id fails with `CartItemNotFound`; and a
feasible update replaces the quantity absolutely. -/
theorem updateItemQuantity_spec_witness :
    (3:ℚ) < 5 ∧
    updateItemQuantity stateScarce "i1" 3 =
      .error (.cart (.insufficientInventory "p1" 2 3)) ∧
    updateItemQuantity stateScarce "ghost" 3 =
      .error (.cart (.cartItemNotFound "ghost")) ∧
    updateItemQuantity stateOneItem "i1" 7 =
      .ok ({ id := "i1", cartId := "c1", productId := "p1",
             quantity := 7, priceSnapshot := 10 },
           { stateOneItem with
               items := [{ id := "i1", cartId := "c1", productId := "p1",
                           quantity := 7, priceSnapshot := 10 }] }) := by
  refine ⟨by decide, ?_, ?_, ?_⟩
  · exact ((updateItemQuantity_spec stateScarce "i1" 3 (by decide) (by decide)).2
      { id := "i1", cartId := "c1", productId := "p1", quantity := 5, priceSnapshot := 10 }
      { productId := "p1", quantity := 2, reserved := 0 }
      (by decide) (by decide)).1 (by decide)
  · exact (updateItemQuantity_spec stateScarce "ghost" 3 (by decide) (by decide)).1 (by decide)
  · exact ((updateItemQuantity_spec stateOneItem "i1" 7 (by decide) (by decide)).2
      { id := "i1", cartId := "c1", productId := "p1", quantity := 1, priceSnapshot := 10 }
      invHundred (by decide) (by decide)).2 (by decide)

/-! ### C1 -/

/-- Conditional form of `List.find?` on a cons cell. -/
theorem find?_cons_eq {α : Type _} (p : α → Bool) (a : α) (l : List α) :
    (a :: l).find? p = if p a then some a else l.find? p := by
  by_cases h : p a = true
  · rw [List.find?_cons_of_pos _ h, if_pos h]
  · rw [List.find?_cons_of_neg _ h, if_neg h]

/-- Helper for reasoning about `setProductPrice`: a product lookup on the
price-rewritten catalog finds the same row, with only its price possibly
replaced. -/
theorem find?_price_map (l : List Product) (pid pid' : String) (p' : ℚ) :
    (l.map (fun p => if p.id == pid then { p with price := p' } else p)).find?
        (fun p => p.id == pid') =
      (l.find? (fun p => p.id == pid')).map
        (fun p => if p.id == pid then { p with price := p' } else p) := by
  induction l with
  | nil => rfl
  | cons a l ih =>
    have hid : ((if a.id == pid then { a with price := p' } else a) : Product).id = a.id := by
      split <;> rfl
    rw [List.map_cons, find?_cons_eq, find?_cons_eq]
    show (if (if a.id == pid then { a with price := p' } else a).id == pid' then _ else _) = _
    rw [hid]
    by_cases h : (a.id == pid') = true
    · rw [if_pos h, if_pos h, Option.map_some']
    · rw [if_neg h, if_neg h, ih]

/-- Product lookup after an external price change: same row found, price
field rewritten when it is the changed product. -/
theorem findProduct_setPrice (s : DBState) (pid pid' : String) (p' : ℚ) :
    findProduct (setProductPrice s pid p') pid' =
      (findProduct s pid').map
        (fun p => if p.id == pid then { p with price := p' } else p) := by
  show (s.products.map _).find? _ = _
  rw [find?_price_map]
  rfl

/-- The creation path of `addItem`: no existing row for the pair, product
and inventory found, stock sufficient — a fresh row is appended, with the
product's current price as its snapshot. -/
theorem addItem_create_path (s : DBState) (cid pid : String) (q : ℚ)
    (prod : Product) (inv : Inventory)
    (hq : ¬ (q ≤ 0))
    (hprod : findProduct s pid = some prod)
    (hinv : findInventory s pid = some inv)
    (hnopair : findCartItemByPair s cid pid = none)
    (hA : ¬ (inv.quantity - inv.reserved < q)) :
    addItem s cid pid q = .ok (⟨genItemId s.nextId, cid, pid, q, prod.price⟩,
      { s with
          items := s.items ++ [⟨genItemId s.nextId, cid, pid, q, prod.price⟩],
          nextId := s.nextId + 1 }) := by
  unfold addItem addItemWith
  rw [if_neg hq]
  simp only [hprod, hinv, hnopair]
  rw [if_neg hA]

/-- The accumulation path of `addItem`: an existing row for the pair, stock
sufficient for both gates — only the row's quantity changes. -/
theorem addItem_update_path (s : DBState) (cid pid : String) (q : ℚ)
    (ex : CartItem) (prod : Product) (inv : Inventory)
    (hq : ¬ (q ≤ 0))
    (hprod : findProduct s pid = some prod)
    (hinv : findInventory s pid = some inv)
    (hex : findCartItemByPair s cid pid = some ex)
    (hA1 : ¬ (inv.quantity - inv.reserved < q))
    (hA2 : ¬ (inv.quantity - inv.reserved < ex.quantity + q)) :
    addItem s cid pid q = .ok ({ ex with quantity := ex.quantity + q },
      { s with items := setRowQuantity s.items ex.id (ex.quantity + q) }) := by
  unfold addItem addItemWith
  rw [if_neg hq]
  simp only [hprod, hinv, hex]
  rw [if_neg hA1, if_neg hA2]

/-- **C1**: starting with no row for `(cartId, productId)`, adding `q1` and
then `q2` (both passing the availability check, and even with the catalog
price changed to `newPrice` between the two calls) leaves exactly one
CartItem row for the pair, whose quantity is `q1 + q2` and whose
`priceSnapshot` is the product's price at the time of the *first* call; the
second call returns the same row with only its quantity changed. -/
theorem addItem_accumulates_single_row (s : DBState) (cid pid : String)
    (q1 q2 newPrice : ℚ) (prod : Product) (inv : Inventory)
    (hq1 : 0 < q1) (hq2 : 0 < q2)
    (hprod : findProduct s pid = some prod)
    (hinv : findInventory s pid = some inv)
    (havail : q1 + q2 ≤ inv.quantity - inv.reserved)
    (hnone : ∀ it ∈ s.items, ¬((it.cartId == cid && it.productId == pid) = true)) :
    ∃ it1 s1 it2 s2,
      addItem s cid pid q1 = .ok (it1, s1) ∧
      addItem (setProductPrice s1 pid newPrice) cid pid q2 = .ok (it2, s2) ∧
      it1.priceSnapshot = prod.price ∧
      it1.quantity = q1 ∧ it1.cartId = cid ∧ it1.productId = pid ∧
      it2 = { it1 with quantity := q1 + q2 } ∧
      s2.items.filter (fun it => it.cartId == cid && it.productId == pid) =
        [{ it1 with quantity := q1 + q2 }] := by
  have hq1' : ¬ (q1 ≤ 0) := not_le.mpr hq1
  have hq2' : ¬ (q2 ≤ 0) := not_le.mpr hq2
  have hA1 : ¬ (inv.quantity - inv.reserved < q1) := by rw [not_lt]; linarith
  have hA2 : ¬ (inv.quantity - inv.reserved < q2) := by rw [not_lt]; linarith
  have hA12 : ¬ (inv.quantity - inv.reserved < q1 + q2) := not_lt.mpr havail
  have hfindPair : findCartItemByPair s cid pid = none := by
    unfold findCartItemByPair
    exact List.find?_eq_none.mpr hnone
  have h1 := addItem_create_path s cid pid q1 prod inv hq1' hprod hinv hfindPair hA1
  have hprod2 : findProduct
      (setProductPrice
        { s with
            items := s.items ++ [⟨genItemId s.nextId, cid, pid, q1, prod.price⟩],
            nextId := s.nextId + 1 } pid newPrice) pid =
      some (if prod.id == pid then { prod with price := newPrice } else prod) := by
    rw [findProduct_setPrice]
    have hp : findProduct
        { s with
            items := s.items ++ [⟨genItemId s.nextId, cid, pid, q1, prod.price⟩],
            nextId := s.nextId + 1 } pid = some prod := hprod
    rw [hp]
    rfl
  have hinv2 : findInventory
      (setProductPrice
        { s with
            items := s.items ++ [⟨genItemId s.nextId, cid, pid, q1, prod.price⟩],
            nextId := s.nextId + 1 } pid newPrice) pid = some inv := hinv
  have hex2 : findCartItemByPair
      (setProductPrice
        { s with
            items := s.items ++ [⟨genItemId s.nextId, cid, pid, q1, prod.price⟩],
            nextId := s.nextId + 1 } pid newPrice) cid pid =
      some ⟨genItemId s.nextId, cid, pid, q1, prod.price⟩ := by
    show (s.items ++ [(⟨genItemId s.nextId, cid, pid, q1, prod.price⟩ : CartItem)]).find? _ = _
    rw [List.find?_append, List.find?_eq_none.mpr hnone, Option.none_or]
    exact List.find?_cons_of_pos _ (by simp)
  have h2 := addItem_update_path
    (setProductPrice
      { s with
          items := s.items ++ [⟨genItemId s.nextId, cid, pid, q1, prod.price⟩],
          nextId := s.nextId + 1 } pid newPrice) cid pid q2
    ⟨genItemId s.nextId, cid, pid, q1, prod.price⟩
    (if prod.id == pid then { prod with price := newPrice } else prod) inv
    hq2' hprod2 hinv2 hex2 hA2 hA12
  refine ⟨⟨genItemId s.nextId, cid, pid, q1, prod.price⟩, _,
          ⟨genItemId s.nextId, cid, pid, q1 + q2, prod.price⟩, _,
          h1, h2, rfl, rfl, rfl, rfl, rfl, ?_⟩
  show (setRowQuantity
      (s.items ++ [(⟨genItemId s.nextId, cid, pid, q1, prod.price⟩ : CartItem)])
      (genItemId s.nextId) (q1 + q2)).filter _ = _
  unfold setRowQuantity
  rw [List.map_append, List.filter_append, List.filter_map]
  have hcomp : ∀ x ∈ s.items,
      ((fun it => it.cartId == cid && it.productId == pid) ∘
        (fun it => if it.id == genItemId s.nextId
                   then { it with quantity := q1 + q2 } else it)) x
      = (fun it => it.cartId == cid && it.productId == pid) x := by
    intro x _
    show ((if x.id == genItemId s.nextId
           then ({ x with quantity := q1 + q2 } : CartItem) else x).cartId == cid &&
          (if x.id == genItemId s.nextId
           then ({ x with quantity := q1 + q2 } : CartItem) else x).productId == pid) = _
    split <;> rfl
  rw [List.filter_congr hcomp, List.filter_eq_nil_iff.mpr hnone, List.map_nil,
      List.nil_append, List.map_cons, List.map_nil]
  simp

/-- Witness for C1: two adds of 2 then 3 units of `p1` into the empty cart,
with the catalog price bumped to 12 in between, leave a single row of
quantity 5 snapshotted at the original price 10. -/
theorem addItem_accumulates_single_row_witness :
    ∃ it1 s1 it2 s2,
      addItem stateEmptyCart "c1" "p1" 2 = .ok (it1, s1) ∧
      addItem (setProductPrice s1 "p1" 12) "c1" "p1" 3 = .ok (it2, s2) ∧
      it1.priceSnapshot = prodTen.price ∧
      it1.quantity = 2 ∧ it1.cartId = "c1" ∧ it1.productId = "p1" ∧
      it2 = { it1 with quantity := 2 + 3 } ∧
      s2.items.filter (fun it => it.cartId == "c1" && it.productId == "p1") =
        [{ it1 with quantity := 2 + 3 }] :=
  addItem_accumulates_single_row stateEmptyCart "c1" "p1" 2 3 12 prodTen invHundred
    (by decide) (by decide) (by decide) (by decide) (by decide) (by decide)

/-! ### C9 -/

/-- **C9**: `addItem` never verifies that `cartId` names an existing Cart:
with a valid product, sufficient inventory and a positive quantity, a cartId
for which `findCart` yields `none` still produces a successful item creation
carrying the dangling `cartId` (no `ProductNotFound`, `InsufficientInventory`,
`InvalidQuantity` or `CartItemNotFound` is raised for the missing cart), and
a store failure inside the transaction (such as a foreign-key rejection)
propagates unchanged as an opaque non-`CartError`. -/
theorem addItem_ignores_missing_cart (s : DBState) (cid pid : String) (q : ℚ) (m : String)
    (prod : Product) (inv : Inventory)
    (_hnoCart : findCart s cid = none)
    (hprod : findProduct s pid = some prod)
    (hinv : findInventory s pid = some inv)
    (hq : 0 < q)
    (havail : q ≤ inv.quantity - inv.reserved)
    (hnopair : findCartItemByPair s cid pid = none) :
    addItem s cid pid q = .ok (⟨genItemId s.nextId, cid, pid, q, prod.price⟩,
      { s with
          items := s.items ++ [⟨genItemId s.nextId, cid, pid, q, prod.price⟩],
          nextId := s.nextId + 1 }) ∧
    addItemWith (some m) s cid pid q = .error (.store m) := by
  constructor
  · exact addItem_create_path s cid pid q prod inv (not_le.mpr hq) hprod hinv hnopair
      (not_lt.mpr havail)
  · unfold addItemWith
    rw [if_neg (not_le.mpr hq)]

/-- Witness for C9: adding to the nonexistent cart `dangling` succeeds and
creates the orphan row; an injected foreign-key store failure surfaces as an
opaque store error. -/
theorem addItem_ignores_missing_cart_witness :
    findCart stateEmptyCart "dangling" = none ∧
    (addItem stateEmptyCart "dangling" "p1" 2 =
        .ok (⟨genItemId stateEmptyCart.nextId, "dangling", "p1", 2, prodTen.price⟩,
          { stateEmptyCart with
              items := stateEmptyCart.items ++
                [⟨genItemId stateEmptyCart.nextId, "dangling", "p1", 2, prodTen.price⟩],
              nextId := stateEmptyCart.nextId + 1 }) ∧
      addItemWith (some "Foreign key constraint failed") stateEmptyCart "dangling" "p1" 2 =
        .error (.store "Foreign key constraint failed")) :=
  ⟨by decide,
   addItem_ignores_missing_cart stateEmptyCart "dangling" "p1" 2
     "Foreign key constraint failed" prodTen invHundred (by decide) (by decide) (by decide)
     (by decide) (by decide) (by decide)⟩

/-! ### C6 -/

/-- Case analysis on a successful `addItem`: either a fresh row was appended
(snapshotting the product's current price) or an existing pair row had only
its quantity bumped. -/
theorem addItem_ok_cases {s : DBState} {cid pid : String} {q : ℚ}
    {it : CartItem} {s' : DBState}
    (h : addItem s cid pid q = .ok (it, s')) :
    (∃ prod, findProduct s pid = some prod ∧
      it = ⟨genItemId s.nextId, cid, pid, q, prod.price⟩ ∧
      s' = { s with items := s.items ++ [it], nextId := s.nextId + 1 }) ∨
    (∃ ex, findCartItemByPair s cid pid = some ex ∧
      it = { ex with quantity := ex.quantity + q } ∧
      s' = { s with items := setRowQuantity s.items ex.id (ex.quantity + q) }) := by
  simp only [addItem, addItemWith] at h
  split at h
  · simp at h
  · split at h
    · simp at h
    · rename_i prod hprod
      split at h
      · simp at h
      · rename_i inv hinv
        split at h
        · simp at h
        · split at h
          · rename_i ex hex
            split at h
            · simp at h
            · simp only [Except.ok.injEq, Prod.mk.injEq] at h
              right
              exact ⟨ex, hex, h.1.symm, h.2.symm⟩
          · rename_i hex
            simp only [Except.ok.injEq, Prod.mk.injEq] at h
            left
            refine ⟨prod, hprod, h.1.symm, ?_⟩
            rw [← h.2, h.1]

/-- Case analysis on a successful `updateItemQuantity`: the row found by id
had exactly its quantity replaced. -/
theorem updateItemQuantity_ok_cases {s : DBState} {iid : String} {q : ℚ}
    {it : CartItem} {s' : DBState}
    (h : updateItemQuantity s iid q = .ok (it, s')) :
    ∃ ex, findCartItemById s iid = some ex ∧
      it = { ex with quantity := q } ∧
      s' = { s with items := setRowQuantity s.items iid q } := by
  simp only [updateItemQuantity, updateItemQuantityWith] at h
  split at h
  · simp at h
  · split at h
    · simp at h
    · rename_i ex hex
      split at h
      · simp at h
      · split at h
        · simp at h
        · simp only [Except.ok.injEq, Prod.mk.injEq] at h
          exact ⟨ex, hex, h.1.symm, h.2.symm⟩

/-- **C6**: every row surviving any cart operation (add, update quantity,
clear, or an external catalog price change) keeps the `priceSnapshot` it
already had; a row not previously present can only appear through the
creation path of an `add`, which snapshots the product's price at that
moment; and every line reported by `getCart` carries the stored snapshot of
its row, so a catalog price change never alters what a line reports. -/
theorem priceSnapshot_immutable (s : DBState) (op : CartOp) :
    (∀ j ∈ (applyOp s op).items,
      (∃ i ∈ s.items, j.id = i.id ∧ j.priceSnapshot = i.priceSnapshot) ∨
      (∃ cid pid q prod, op = .add cid pid q ∧ findProduct s pid = some prod ∧
        j = ⟨genItemId s.nextId, cid, pid, q, prod.price⟩)) ∧
    (∀ r cid line, line ∈ (getCart r s cid).items →
      ∃ i ∈ s.items, line.id = i.id ∧ line.priceSnapshot = i.priceSnapshot) := by
  constructor
  · intro j hj
    cases op with
    | add cid pid q =>
      dsimp only [applyOp] at hj
      rcases hadd : addItem s cid pid q with e | p
      · rw [hadd] at hj
        exact .inl ⟨j, hj, rfl, rfl⟩
      · rcases p with ⟨it, s2⟩
        rw [hadd] at hj
        rcases addItem_ok_cases hadd with ⟨prod, hprod, hit, hs2⟩ | ⟨ex, hex, hit, hs2⟩
        · rw [hs2] at hj
          rcases List.mem_append.mp hj with hjs | hjnew
          · exact .inl ⟨j, hjs, rfl, rfl⟩
          · right
            refine ⟨cid, pid, q, prod, rfl, hprod, ?_⟩
            rw [List.mem_singleton.mp hjnew, hit]
        · rw [hs2] at hj
          rcases List.mem_map.mp hj with ⟨i, hi, hji⟩
          left
          refine ⟨i, hi, ?_, ?_⟩ <;> rw [← hji]
          · show (if i.id == ex.id then ({ i with quantity := ex.quantity + q } : CartItem)
                  else i).id = i.id
            split <;> rfl
          · show (if i.id == ex.id then ({ i with quantity := ex.quantity + q } : CartItem)
                  else i).priceSnapshot = i.priceSnapshot
            split <;> rfl
    | update iid q =>
      dsimp only [applyOp] at hj
      rcases hupd : updateItemQuantity s iid q with e | p
      · rw [hupd] at hj
        exact .inl ⟨j, hj, rfl, rfl⟩
      · rcases p with ⟨it, s2⟩
        rw [hupd] at hj
        rcases updateItemQuantity_ok_cases hupd with ⟨ex, hex, hit, hs2⟩
        rw [hs2] at hj
        rcases List.mem_map.mp hj with ⟨i, hi, hji⟩
        left
        refine ⟨i, hi, ?_, ?_⟩ <;> rw [← hji]
        · show (if i.id == iid then ({ i with quantity := q } : CartItem) else i).id = i.id
          split <;> rfl
        · show (if i.id == iid then ({ i with quantity := q } : CartItem)
                else i).priceSnapshot = i.priceSnapshot
          split <;> rfl
    | clear cid =>
      dsimp only [applyOp, clearCart] at hj
      exact .inl ⟨j, (List.mem_filter.mp hj).1, rfl, rfl⟩
    | priceChange pid p =>
      dsimp only [applyOp, setProductPrice] at hj
      exact .inl ⟨j, hj, rfl, rfl⟩
  · intro r cid line hline
    unfold getCart at hline
    rcases hfc : findCart s cid with _ | c
    · rw [hfc] at hline
      simp at hline
    · rw [hfc] at hline
      simp only [formatCartResponse_items_eq] at hline
      rcases List.mem_map.mp hline with ⟨ip, hip, hlineeq⟩
      unfold cartItemsWithProducts at hip
      rcases List.mem_filterMap.mp hip with ⟨a, ha, hfa⟩
      rcases Option.map_eq_some'.mp hfa with ⟨p, hp, hpa⟩
      refine ⟨a, (List.mem_filter.mp ha).1, ?_, ?_⟩ <;> rw [← hlineeq, ← hpa]

/-- Witness for C6: a catalog price change (to 99) on the product of the
stored row does not touch the row's snapshot — the surviving row still
matches one already in the store with equal snapshot. -/
theorem priceSnapshot_immutable_witness :
    (∃ i ∈ stateOneItem.items,
        (⟨"i1", "c1", "p1", (1:ℚ), (10:ℚ)⟩ : CartItem).id = i.id ∧
        (⟨"i1", "c1", "p1", (1:ℚ), (10:ℚ)⟩ : CartItem).priceSnapshot = i.priceSnapshot) ∨
    (∃ cid pid q prod, CartOp.priceChange "p1" 99 = CartOp.add cid pid q ∧
        findProduct stateOneItem pid = some prod ∧
        (⟨"i1", "c1", "p1", (1:ℚ), (10:ℚ)⟩ : CartItem) =
          ⟨genItemId stateOneItem.nextId, cid, pid, q, prod.price⟩) :=
  (priceSnapshot_immutable stateOneItem (.priceChange "p1" 99)).1
    ⟨"i1", "c1", "p1", 1, 10⟩ (by decide)

end CartModel
